import Mathlib

/-!
Shallow embedding of the AI-REA conversational assistant widget
(frontend component Assistant.jsx): the page-context resolver tables,
the action dispatcher, and the conversation controller around the
chat endpoint, together with theorems settling the specified
properties of that layer.

Modelling conventions:
* JS strings are Lean String; absent or undefined JSON fields are Option.
* The uuid generator is modelled as a fresh-identifier supply: the state
  carries a counter and drawing an identifier returns the counter and
  increments it. Thread identifiers are Nat.
* The async send call is split at its suspension point: sendStart models
  the code up to the fetch (guard, user-message append, request body);
  sendOk models the success continuation plus the finally block; sendErr
  models the catch branch plus the finally block.
* Side effects against the host page (router navigation and the two
  CustomEvent broadcasts) are reified as an ordered list of Effect values
  returned by the dispatcher.
-/

namespace AIREA

/-- Table ROUTE_TO_PAGE from Assistant.jsx: path to page name. -/
def ROUTE_TO_PAGE : List (String × String) :=
  [("/", "home"),
   ("/dashboard", "dashboard"),
   ("/results", "results"),
   ("/marketplace", "marketplace"),
   ("/marketplace/sell", "marketplace_sell"),
   ("/marketplace/buy", "marketplace_buy"),
   ("/about", "about")]

/-- Table PAGE_TO_ROUTE from Assistant.jsx: page name to path. -/
def PAGE_TO_ROUTE : List (String × String) :=
  [("home", "/"),
   ("dashboard", "/dashboard"),
   ("results", "/results"),
   ("marketplace", "/marketplace"),
   ("marketplace_sell", "/marketplace/sell"),
   ("marketplace_buy", "/marketplace/buy"),
   ("about", "/about")]

/-- JS object property lookup on a literal string-keyed table:
TABLE[k] is the mapped value or undefined. -/
def lookupTable (tbl : List (String × String)) (k : String) : Option String :=
  (tbl.find? (fun kv => kv.1 == k)).map (fun kv => kv.2)

/-- Line 51 of Assistant.jsx: ROUTE_TO_PAGE[loc.pathname] || "home". -/
def resolve (path : String) : String :=
  (lookupTable ROUTE_TO_PAGE path).getD "home"

/-- PAGE_TO_ROUTE[p], as used by the guide action: undefined when p is
not a known page name. -/
def route (p : String) : Option String :=
  lookupTable PAGE_TO_ROUTE p

/-- The closed PageContext enumeration. -/
def pageNames : List String :=
  ["home", "dashboard", "results", "marketplace",
   "marketplace_sell", "marketplace_buy", "about"]

/-- One element of the ui_actions array in the backend response. The
fields are untyped JSON in the source, so each is optional here. -/
structure Action where
  ui_action : Option String
  page : Option String
  query : Option String
  fields : Option (List (String × String))
deriving DecidableEq

/-- An observable side effect of the dispatcher against the host page:
a router navigation, or one of the two CustomEvent broadcasts with its
payload forwarded verbatim (detail of assistant-fill-query is the object
with the query field; detail of assistant-fill-sell-form is a.fields). -/
inductive Effect where
  | navigate : String → Effect
  | fillQueryEvent : Option String → Effect
  | fillSellFormEvent : Option (List (String × String)) → Effect
deriving DecidableEq

/-- The effects produced by one iteration of the forEach body of
executeUIActions (lines 82 to 99 of Assistant.jsx), in emission order. -/
def actionEffects (currentPath : String) (a : Action) : List Effect :=
  (if a.ui_action = some "guide" then
    match Option.bind a.page (lookupTable PAGE_TO_ROUTE) with
    | some r => if r ≠ currentPath then [Effect.navigate r] else []
    | none => []
  else []) ++
  (if a.ui_action = some "fill_query" then [Effect.fillQueryEvent a.query] else []) ++
  (if a.ui_action = some "fill_sell_form" then [Effect.fillSellFormEvent a.fields] else [])

/-- executeUIActions: iterate the action array in order, accumulating
effects. -/
def executeUIActions (actions : List Action) (currentPath : String) : List Effect :=
  match actions with
  | [] => []
  | a :: rest => actionEffects currentPath a ++ executeUIActions rest currentPath

/-- One entry of the message log: role is user or assistant, badge is the
optional tool tag attached to an assistant reply. -/
structure Message where
  role : String
  text : String
  badge : Option String
deriving DecidableEq

/-- The JSON body posted to /api/assistant/chat (lines 115 to 120). -/
structure ChatRequest where
  message : String
  thread_id : Nat
  current_page : String
  language : String
deriving DecidableEq

/-- The parsed JSON body of a successful backend response. -/
structure ChatResponse where
  reply : String
  thread_id : Nat
  tools_called : List String
  ui_actions : List Action
deriving DecidableEq

/-- The component state of the assistant widget: message log, input box,
loading flag (true exactly while a request is in flight, i.e. the Sending
state), current thread identifier, the fresh-identifier supply modelling
the uuid generator, and the ambient page context (router path and i18n
language). -/
structure AState where
  msgs : List Message
  input : String
  loading : Bool
  threadId : Nat
  supply : Nat
  path : String
  language : String
deriving DecidableEq

/-- JS String.prototype.trim: strip whitespace from both ends. -/
def jsTrim (s : String) : String :=
  String.mk (((s.toList.dropWhile Char.isWhitespace).reverse.dropWhile
    Char.isWhitespace).reverse)

/-- The greeting message built by getGreeting: the translation of the key
assistant.greetings.PAGE for the current page name, under the ambient
translation function t. -/
def greetingMsg (t : String → String) (pageName : String) : Message :=
  Message.mk "assistant" (t (String.append "assistant.greetings." pageName)) none

/-- The synchronous prefix of send (lines 103 to 121): the guard rejects
an empty trimmed input or an in-flight request with no state change and
no transport call; otherwise the user message is appended, the input
cleared, loading set, and the request body is produced. -/
def sendStart (s : AState) : AState × Option ChatRequest :=
  let text := jsTrim s.input
  if text = "" ∨ s.loading = true then (s, none)
  else
    ({ s with msgs := s.msgs ++ [Message.mk "user" text none],
              input := "",
              loading := true },
     some (ChatRequest.mk text s.threadId (resolve s.path) s.language))

/-- The success continuation of send (lines 123 to 133) plus the finally
block: adopt the returned thread id, dispatch the ui_actions (when the
array is non-empty) against the path captured by the closure at submit
time, append the assistant reply badged with the last called tool, and
clear loading. Returns the new state and the emitted effects. -/
def sendOk (capturedPath : String) (s : AState) (data : ChatResponse) :
    AState × List Effect :=
  let effects := if data.ui_actions.isEmpty then []
                 else executeUIActions data.ui_actions capturedPath
  let badge := if data.tools_called.isEmpty then none
               else data.tools_called.getLast?
  ({ s with threadId := data.thread_id,
            msgs := s.msgs ++ [Message.mk "assistant" data.reply badge],
            loading := false },
   effects)

/-- The catch branch of send (lines 134 to 139) plus the finally block:
append one localized error message and clear loading; the thread
identifier is untouched. Covers a non-ok HTTP status, a network failure,
and an unparseable response body alike, since all of them land in the
same catch. -/
def sendErr (t : String → String) (s : AState) : AState :=
  { s with msgs := s.msgs ++ [Message.mk "assistant" (t "assistant.error") none],
           loading := false }

/-- The reset click handler (lines 152 to 155): draw a fresh thread
identifier and replace the log with the single greeting for the current
page. -/
def reset (t : String → String) (s : AState) : AState :=
  { s with threadId := s.supply,
           supply := s.supply + 1,
           msgs := [greetingMsg t (resolve s.path)] }

/-- The useEffect on [page, i18n.language] (lines 65 to 68), applied at
the moment the router path or the language changes: the new context is
installed, the log is replaced with the greeting for the new page, and a
fresh thread identifier is drawn. -/
def pageContextEffect (t : String → String) (newPath newLang : String)
    (s : AState) : AState :=
  { s with path := newPath,
           language := newLang,
           msgs := [greetingMsg t (resolve newPath)],
           threadId := s.supply,
           supply := s.supply + 1 }

/-- The identity translation table, used to instantiate concrete runs. -/
def idT : String → String := fun k => k

/-- A guide action for a given page name, with no other payload. -/
def mkGuide (pname : String) : Action :=
  Action.mk (some "guide") (some pname) none none

/-- Initial state for the concrete stale-response run: widget freshly
mounted on the home page, thread identifier 0, user typed hi. -/
def staleS0 : AState :=
  AState.mk [greetingMsg idT "home"] "hi" false 0 1 "/" "en"

/-- The late backend response of the stale-response run: it still carries
thread identifier 0 and instructs one fill_query action. -/
def staleData : ChatResponse :=
  ChatResponse.mk "late reply" 0 ["fill_query_input"]
    [Action.mk (some "fill_query") none (some "3 BHK in Pune") none]

/-- Concrete idle state with pending input, for single-flight runs. -/
def sfS : AState :=
  AState.mk [] "hello" false 5 6 "/" "en"

/-- Concrete idle state on the dashboard page, for the failure run. -/
def errS : AState :=
  AState.mk [greetingMsg idT "dashboard"] "price of flats" false 2 3 "/dashboard" "en"

/-- Concrete in-flight state, for the success run. -/
def okS : AState :=
  AState.mk [Message.mk "user" "hi" none] "" true 3 7 "/dashboard" "en"

/-- Concrete successful backend response with two called tools and one
fill_query action. -/
def okData : ChatResponse :=
  ChatResponse.mk "Done" 9 ["guide_to_page", "fill_query_input"]
    [Action.mk (some "fill_query") none (some "3 BHK apartment in Pune") none]

/-- Concrete home-page state, for the reset and context-change runs. -/
def rsS : AState :=
  AState.mk [greetingMsg idT "home"] "" false 0 1 "/" "en"

end AIREA

namespace AIREA

/-- Claim C3: for every PageContext value p in the closed enumeration,
resolving the path produced by routing p yields p again. -/
theorem routing_round_trip : ∀ p ∈ pageNames, (route p).map resolve = some p := by
  decide

/-- Witness for routing_round_trip at the page dashboard. -/
theorem routing_round_trip_witness :
    (route "dashboard").map resolve = some "dashboard" :=
  routing_round_trip "dashboard" (by decide)

/-- Claim C9: resolve is total with default home: every path that is not
a key of the route table resolves to home; in particular the unmapped
path /nonexistent does. -/
theorem resolve_total_default_home :
    (∀ path : String, lookupTable ROUTE_TO_PAGE path = none → resolve path = "home")
  ∧ resolve "/nonexistent" = "home" := by
  constructor
  · intro path h
    simp [resolve, h]
  · decide

/-- Witness for resolve_total_default_home on a concrete unmapped path. -/
theorem resolve_total_default_home_witness :
    resolve "/marketplace/rent" = "home" :=
  resolve_total_default_home.1 "/marketplace/rent" (by decide)

/-- Claim C6: the dispatcher is lenient and order-preserving: splitting
the action array anywhere shows each action contributes its own effects
in array order, independently of its neighbours, so a failing action
never blocks later ones; an action whose tag is none of guide,
fill_query, fill_sell_form contributes nothing; a guide action whose
page does not route contributes nothing. -/
theorem dispatch_lenient_in_order (p : String) :
    (∀ as1 a as2, executeUIActions (as1 ++ a :: as2) p
        = executeUIActions as1 p ++ (actionEffects p a ++ executeUIActions as2 p))
  ∧ (∀ a : Action, a.ui_action ≠ some "guide" → a.ui_action ≠ some "fill_query" →
        a.ui_action ≠ some "fill_sell_form" → actionEffects p a = [])
  ∧ (∀ a : Action, a.ui_action = some "guide" →
        Option.bind a.page (lookupTable PAGE_TO_ROUTE) = none →
        actionEffects p a = []) := by
  refine ⟨?_, ?_, ?_⟩
  · intro as1 a as2
    induction as1 with
    | nil => simp [executeUIActions]
    | cons b rest ih => simp [executeUIActions, ih, List.append_assoc]
  · intro a h1 h2 h3
    simp [actionEffects, h1, h2, h3]
  · intro a h1 h2
    simp [actionEffects, h1, h2]

/-- Witness for dispatch_lenient_in_order: an unknown tag and a guide to
an unknown page each contribute no effect, yet an action placed after
them still fires. -/
theorem dispatch_lenient_in_order_witness :
    actionEffects "/" (Action.mk (some "frobnicate") none none none) = []
  ∧ actionEffects "/" (mkGuide "atlantis") = []
  ∧ executeUIActions
      [mkGuide "atlantis", Action.mk (some "fill_query") none (some "q") none] "/"
      = [Effect.fillQueryEvent (some "q")] := by
  refine ⟨?_, ?_, ?_⟩
  · exact (dispatch_lenient_in_order "/").2.1
      (Action.mk (some "frobnicate") none none none)
      (by decide) (by decide) (by decide)
  · exact (dispatch_lenient_in_order "/").2.2 (mkGuide "atlantis") (by decide) (by decide)
  · have h := (dispatch_lenient_in_order "/").1 []
      (mkGuide "atlantis")
      [Action.mk (some "fill_query") none (some "q") none]
    rw [List.nil_append] at h
    rw [h]
    have h2 := (dispatch_lenient_in_order "/").2.2 (mkGuide "atlantis")
      (by decide) (by decide)
    rw [h2]
    decide

/-- Claim C7: a guide action whose page routes to the current path emits
no navigation; when the target path differs, exactly one navigation is
emitted. -/
theorem guide_navigation_idempotent (pname curPath r : String)
    (h : route pname = some r) :
    (r = curPath → executeUIActions [mkGuide pname] curPath = [])
  ∧ (r ≠ curPath → executeUIActions [mkGuide pname] curPath = [Effect.navigate r]) := by
  have hb : Option.bind (Action.mk (some "guide") (some pname) none none).page
      (lookupTable PAGE_TO_ROUTE) = some r := h
  constructor
  · intro hr
    simp [executeUIActions, actionEffects, mkGuide, hb, hr]
  · intro hr
    simp [executeUIActions, actionEffects, mkGuide, hb, hr]

/-- Witness for guide_navigation_idempotent: guiding to dashboard is a
no-op on /dashboard and a single navigation from /. -/
theorem guide_navigation_idempotent_witness :
    executeUIActions [mkGuide "dashboard"] "/dashboard" = []
  ∧ executeUIActions [mkGuide "dashboard"] "/" = [Effect.navigate "/dashboard"] :=
  ⟨(guide_navigation_idempotent "dashboard" "/dashboard" "/dashboard" (by decide)).1 rfl,
   (guide_navigation_idempotent "dashboard" "/" "/dashboard" (by decide)).2 (by decide)⟩

/-- Claim C10: a fill_query action emits exactly one fill-query signal
carrying the object with the query field, and a fill_sell_form action
emits exactly one fill-sell-form signal carrying the fields value; both
fire with the payload forwarded verbatim even when it is absent (none)
rather than the action being dropped. -/
theorem fill_actions_forward_payload_verbatim (p : String) (pg q : Option String)
    (f : Option (List (String × String))) :
    executeUIActions [Action.mk (some "fill_query") pg q f] p
      = [Effect.fillQueryEvent q]
  ∧ executeUIActions [Action.mk (some "fill_sell_form") pg q f] p
      = [Effect.fillSellFormEvent f] := by
  constructor <;> simp [executeUIActions, actionEffects]

/-- Claim C2: submission is single-flight: from an idle state with
non-empty trimmed input, the first sendStart produces a transport
request, an immediately following sendStart on the resulting state is a
pure no-op producing no request, and in general any sendStart while
loading leaves the state untouched and calls no transport. -/
theorem single_flight (s : AState) (h1 : ¬ jsTrim s.input = "")
    (h2 : s.loading = false) :
    ((sendStart s).2).isSome = true
  ∧ sendStart (sendStart s).1 = ((sendStart s).1, none)
  ∧ (∀ s2 : AState, s2.loading = true → sendStart s2 = (s2, none)) := by
  have hc : ¬ (jsTrim s.input = "" ∨ s.loading = true) := by
    simp [h1, h2]
  refine ⟨?_, ?_, ?_⟩
  · simp [sendStart, hc]
  · have hfst : (sendStart s).1
        = { s with msgs := s.msgs ++ [Message.mk "user" (jsTrim s.input) none],
                   input := "", loading := true } := by
      simp [sendStart, hc]
    rw [hfst]
    simp [sendStart]
  · intro s2 h
    simp [sendStart, h]

/-- Witness for single_flight on a concrete idle state. -/
theorem single_flight_witness :
    ((sendStart sfS).2).isSome = true
  ∧ sendStart (sendStart sfS).1 = ((sendStart sfS).1, none) := by
  have h := single_flight sfS (by decide) (by decide)
  exact ⟨h.1, h.2.1⟩

/-- Claim C4: when the transport fails (non-ok status, network failure,
or unparseable body, which all reach the same catch), the log gains
exactly one localized error message after the user message appended at
submit time, the thread identifier is unchanged, and loading is cleared
(the machine returns to Idle). -/
theorem failure_one_error_message (t : String → String) (s : AState)
    (h1 : ¬ jsTrim s.input = "") (h2 : s.loading = false) :
    (sendErr t (sendStart s).1).msgs
      = s.msgs ++ [Message.mk "user" (jsTrim s.input) none,
                   Message.mk "assistant" (t "assistant.error") none]
  ∧ (sendErr t (sendStart s).1).threadId = s.threadId
  ∧ (sendErr t (sendStart s).1).loading = false := by
  have hc : ¬ (jsTrim s.input = "" ∨ s.loading = true) := by
    simp [h1, h2]
  refine ⟨?_, ?_, ?_⟩ <;> simp [sendStart, hc, sendErr]

/-- Witness for failure_one_error_message on a concrete dashboard
state. -/
theorem failure_one_error_message_witness :
    (sendErr idT (sendStart errS).1).msgs
      = errS.msgs ++ [Message.mk "user" "price of flats" none,
                      Message.mk "assistant" "assistant.error" none]
  ∧ (sendErr idT (sendStart errS).1).threadId = 2
  ∧ (sendErr idT (sendStart errS).1).loading = false := by
  have h := failure_one_error_message idT errS (by decide) (by decide)
  exact h

/-- Claim C5: on a successful turn the controller adopts the thread
identifier of the response, dispatches exactly the effects of the
response action list against the captured path, and appends one
assistant message whose badge is the last entry of tools_called when
that list is non-empty and absent when it is empty. -/
theorem success_adopts_thread_and_badge (cp : String) (s : AState)
    (data : ChatResponse) :
    (sendOk cp s data).1.threadId = data.thread_id
  ∧ (sendOk cp s data).2 = executeUIActions data.ui_actions cp
  ∧ ∃ b, (sendOk cp s data).1.msgs = s.msgs ++ [Message.mk "assistant" data.reply b]
      ∧ (data.tools_called = [] → b = none)
      ∧ (∀ pre lst, data.tools_called = pre ++ [lst] → b = some lst) := by
  refine ⟨rfl, ?_, ?_⟩
  · cases h : data.ui_actions with
    | nil => simp [sendOk, h, executeUIActions]
    | cons a rest => simp [sendOk, h]
  · refine ⟨if data.tools_called.isEmpty then none else data.tools_called.getLast?,
      rfl, ?_, ?_⟩
    · intro h
      simp [h]
    · intro pre lst h
      rw [h]
      have hne : ((pre ++ [lst]).isEmpty) = false := by
        cases pre <;> simp
      simp [hne, List.getLast?_concat]

/-- Witness for success_adopts_thread_and_badge: the badge-derivation
run with tools_called equal to guide_to_page then fill_query_input. -/
theorem success_adopts_thread_and_badge_witness :
    (sendOk "/dashboard" okS okData).1.threadId = 9
  ∧ (sendOk "/dashboard" okS okData).1.msgs
      = okS.msgs ++ [Message.mk "assistant" "Done" (some "fill_query_input")]
  ∧ (sendOk "/dashboard" okS okData).2
      = [Effect.fillQueryEvent (some "3 BHK apartment in Pune")] := by
  obtain ⟨ht, he, b, hmsgs, -, hlast⟩ :=
    success_adopts_thread_and_badge "/dashboard" okS okData
  refine ⟨ht, ?_, ?_⟩
  · rw [hlast ["guide_to_page"] "fill_query_input" rfl] at hmsgs
    exact hmsgs
  · rw [he]
    decide

/-- Claim C8: on a page-context change (path or language) and on an
explicit reset alike, the log is replaced by exactly the one greeting
for the new page context and the drawn thread identifier differs from
the previous one (the uuid supply never re-issues the current id). -/
theorem context_change_and_reset_fresh (t : String → String) (s : AState)
    (newPath newLang : String)
    (hchange : (newPath, newLang) ≠ (s.path, s.language))
    (hfresh : s.threadId ≠ s.supply) :
    (pageContextEffect t newPath newLang s).msgs = [greetingMsg t (resolve newPath)]
  ∧ (pageContextEffect t newPath newLang s).threadId ≠ s.threadId
  ∧ (reset t s).msgs = [greetingMsg t (resolve s.path)]
  ∧ (reset t s).threadId ≠ s.threadId :=
  ⟨rfl, fun h => hfresh h.symm, rfl, fun h => hfresh h.symm⟩

/-- Witness for context_change_and_reset_fresh: navigating from the home
page to /about. -/
theorem context_change_and_reset_fresh_witness :
    (pageContextEffect idT "/about" "en" rsS).msgs
      = [greetingMsg idT (resolve "/about")]
  ∧ (pageContextEffect idT "/about" "en" rsS).threadId ≠ rsS.threadId
  ∧ (reset idT rsS).msgs = [greetingMsg idT (resolve rsS.path)]
  ∧ (reset idT rsS).threadId ≠ rsS.threadId :=
  context_change_and_reset_fresh idT rsS "/about" "en" (by decide) (by decide)

/-- Claim C1 as stated is false of the code: in a concrete run where the
request was issued under thread 0, a reset then moved the widget to
thread 1, and the late response still carries thread 0, the success
continuation nevertheless appends an assistant message to the log and
dispatches the fill_query action: no staleness check exists in send. -/
theorem stale_response_applied_counterexample :
    (sendStart staleS0).2 = some (ChatRequest.mk "hi" 0 "home" "en")
  ∧ (reset idT (sendStart staleS0).1).threadId = 1
  ∧ staleData.thread_id = 0
  ∧ (sendOk staleS0.path (reset idT (sendStart staleS0).1) staleData).1.msgs
      = (reset idT (sendStart staleS0).1).msgs
        ++ [Message.mk "assistant" "late reply" (some "fill_query_input")]
  ∧ (sendOk staleS0.path (reset idT (sendStart staleS0).1) staleData).2
      = [Effect.fillQueryEvent (some "3 BHK in Pune")]
  ∧ (sendOk staleS0.path (reset idT (sendStart staleS0).1) staleData).2 ≠ [] := by
  decide

/-- Claim C1 amended: the code performs no staleness check, so a late
response whose thread identifier no longer matches the current one is
applied like any other: the log grows by one assistant message (keeping
every existing message), the stale thread identifier of the response is
adopted, and its actions are dispatched. -/
theorem late_response_still_applied (cp : String) (s : AState)
    (data : ChatResponse) (hstale : data.thread_id ≠ s.threadId) :
    (sendOk cp s data).1.msgs.length = s.msgs.length + 1
  ∧ (∀ m ∈ s.msgs, m ∈ (sendOk cp s data).1.msgs)
  ∧ (sendOk cp s data).1.threadId = data.thread_id
  ∧ (sendOk cp s data).2 = executeUIActions data.ui_actions cp := by
  refine ⟨?_, ?_, rfl, ?_⟩
  · simp [sendOk]
  · intro m hm
    simp only [sendOk, List.mem_append]
    exact Or.inl hm
  · cases h : data.ui_actions with
    | nil => simp [sendOk, h, executeUIActions]
    | cons a rest => simp [sendOk, h]

/-- Witness for late_response_still_applied on the concrete stale run. -/
theorem late_response_still_applied_witness :
    (sendOk "/" (reset idT (sendStart staleS0).1) staleData).1.threadId
      = staleData.thread_id
  ∧ (sendOk "/" (reset idT (sendStart staleS0).1) staleData).2
      = executeUIActions staleData.ui_actions "/" := by
  have h := late_response_still_applied "/" (reset idT (sendStart staleS0).1)
    staleData (by decide)
  exact ⟨h.2.2.1, h.2.2.2⟩

end AIREA
